import Mathlib

/-!
Verification development for the conversational-gateway bot in `src/app.py`.

The Python program keeps a SQLite table `messages (user_id, message, response,
timestamp)`, builds a prompt from the most recent exchanges of a user, calls a
generative backend, and runs a polling loop that retries on any transport
fault.  The definitions below are a shallow embedding of those functions:

* the table is a list of `Exchange` rows in insertion order; `datetime.now()`
  timestamps are naturals supplied by the caller;
* a storage exception (`sqlite3` raising anywhere inside a `try` block) is
  modelled by the `fail` field of `Store`: `some e` means every storage
  operation raises with message `e`;
* the SQL `ORDER BY timestamp DESC` is modelled by `List.insertionSort` with
  the reflexive descending order on timestamps (SQLite leaves the order of
  ties unspecified; the theorems that depend on the order assume strictly
  increasing timestamps, under which every sort agrees);
* network calls (`requests.get` plus JSON field access) are modelled by a
  `FetchOutcome` value: either the try-block raised with a message, or an
  HTTP status arrived together with the parsed fields used by the code
  (numeric renderings such as Python's `{temp:.1f}` are kept as the already
  formatted text, since no claim depends on float formatting);
* the Gemini call `model.generate_content` is an abstract
  `String → Except String String` argument.
-/

/-- One row of the `messages` table created by `init_db` (src/app.py, lines
36-50): `user_id INTEGER, message TEXT, response TEXT, timestamp DATETIME`. -/
structure Exchange where
  user_id : Int
  message : String
  response : String
  timestamp : Nat
deriving DecidableEq, Repr

/-- The persistent storage state.  `rows` is the table in insertion order;
`fail = some e` models the underlying SQLite storage raising an exception with
message `e` inside any of the `try` blocks of the database functions. -/
structure Store where
  rows : List Exchange
  fail : Option String
deriving DecidableEq, Repr

/-- The comparison realised by `ORDER BY timestamp DESC`: row `a` comes before
row `b` when `b`'s timestamp is at most `a`'s. -/
def descRel (a b : Exchange) : Prop := b.timestamp ≤ a.timestamp

instance : DecidableRel descRel := fun a b => Nat.decLe b.timestamp a.timestamp

/-- `add_to_history(user_id, message, response)` (src/app.py, lines 52-62):
`INSERT INTO messages VALUES (?,?,?,?)` with `datetime.now()` as timestamp.
Any exception is caught and printed (`Error adding to history: ...`) and the
function returns normally.  The result is the new store together with the
console error output (empty when the write succeeded). -/
def add_to_history (st : Store) (user_id : Int) (message response : String)
    (now : Nat) : Store × List String :=
  match st.fail with
  | some e => (st, ["Error adding to history: " ++ e])
  | none => ({ st with rows := st.rows ++ [⟨user_id, message, response, now⟩] }, [])

/-- The rows of one user in insertion (chronological) order: the
`WHERE user_id = ?` clause of `get_chat_history`. -/
def userRows (st : Store) (user_id : Int) : List Exchange :=
  st.rows.filter (fun e => e.user_id = user_id)

/-- `get_chat_history(user_id, limit=5)` (src/app.py, lines 64-79):
`SELECT message, response FROM messages WHERE user_id = ? ORDER BY timestamp
DESC LIMIT ?`, then `history[::-1]` to restore chronological order.  Any
exception makes the function return `[]`. -/
def get_chat_history (st : Store) (user_id : Int) (limit : Nat := 5) :
    List (String × String) :=
  match st.fail with
  | some _ => []
  | none =>
      let ordered := (userRows st user_id).insertionSort descRel
      ((ordered.take limit).reverse).map (fun e => (e.message, e.response))

/-- `clear_history(user_id)` (src/app.py, lines 81-90):
`DELETE FROM messages WHERE user_id = ?`.  Any exception is caught and printed
(`Error clearing history: ...`) and the function returns normally. -/
def clear_history (st : Store) (user_id : Int) : Store × List String :=
  match st.fail with
  | some e => (st, ["Error clearing history: " ++ e])
  | none => ({ st with rows := st.rows.filter (fun e => ¬ (e.user_id = user_id)) }, [])

/-- The context string built by the loop of `handle_message` (src/app.py,
lines 377-379): it starts from the constant header and appends one
`User:`/`Assistant:` block per history pair, in window order. -/
def buildContext (history : List (String × String)) : String :=
  history.foldl
    (fun ctx p => ctx ++ ("User: " ++ p.1 ++ "\nAssistant: " ++ p.2 ++ "\n"))
    "Previous conversation:\n"

/-- The prompt of `handle_message` (src/app.py, line 382):
`f"{context}\nUser: {message.text}\nAssistant: "`. -/
def build_prompt (history : List (String × String)) (text : String) : String :=
  buildContext history ++ "\nUser: " ++ text ++ "\nAssistant: "

/-- `handle_message` (src/app.py, lines 369-393), the free-form AI path, with
the Gemini call (`model.generate_content` followed by `.text`) abstracted as
`gen : String → Except String String`.  On success the exchange is saved with
`add_to_history` and the response text is the reply; any exception makes the
reply the apology string and leaves the store untouched. -/
def handle_message (st : Store) (gen : String → Except String String)
    (user_id : Int) (text : String) (now : Nat) : Store × String :=
  let history := get_chat_history st user_id 5
  let prompt := build_prompt history text
  match gen prompt with
  | Except.ok response_text =>
      ((add_to_history st user_id text response_text now).1, response_text)
  | Except.error e => (st, "Извините, произошла ошибка: " ++ e)

/-- Outcome of one `requests.get` call as observed by a provider's `try`
block: either some statement in the block raised (network error, JSON decode
error, missing key) with message `e`, or a response arrived with an HTTP
status and the parsed fields the code reads. -/
inductive FetchOutcome (α : Type)
  | raised (e : String)
  | ok (status : Nat) (data : α)
deriving DecidableEq, Repr

/-- The fields of the OpenWeatherMap response read by `get_weather`
(src/app.py, lines 104-106).  `tempText` and `humidityText` are the rendered
numbers (`{temp:.1f}` and `{humidity}`); float formatting itself is not
modelled. -/
structure WeatherData where
  description : String
  tempText : String
  humidityText : String
deriving DecidableEq, Repr

/-- Python's `str.capitalize()`: first character uppercased, the rest
lowercased. -/
def pyCapitalize (s : String) : String :=
  match s.data with
  | [] => ""
  | c :: cs => String.mk (c.toUpper :: cs.map Char.toLower)

/-- `get_weather(city)` (src/app.py, lines 92-114).  On status 200 it formats
the weather report; on any other status it returns the fixed not-found text;
if the request or field access raised, it returns the error text with the
exception message.  It always returns a string. -/
def get_weather (city : String) (outcome : FetchOutcome WeatherData) : String :=
  match outcome with
  | FetchOutcome.raised e => "Произошла ошибка при получении погоды: " ++ e
  | FetchOutcome.ok status data =>
      if status = 200 then
        "🌍 Погода в " ++ (city ++ (":\n🌤 " ++ (pyCapitalize data.description ++
          ("\n🌡 Температура: " ++ (data.tempText ++ ("°C\n💧 Влажность: " ++
          (data.humidityText ++ "%")))))))
      else
        "Извините, город не найден или произошла ошибка."

/-- The fields of the NASA APOD response read by `get_nasa_apod` (src/app.py,
lines 124-126); `url` is `data.get('url', '')`, so a missing key yields
`none` and the code substitutes the empty string. -/
structure ApodData where
  title : String
  explanation : String
  url : Option String
deriving DecidableEq, Repr

/-- `get_nasa_apod()` (src/app.py, lines 116-133).  On status 200 it formats
the picture-of-the-day message; on any other status it returns the fixed
failure text; if the request raised, it returns the error text with the
exception message.  It always returns a string. -/
def get_nasa_apod (outcome : FetchOutcome ApodData) : String :=
  match outcome with
  | FetchOutcome.raised e => "Произошла ошибка при получении данных NASA: " ++ e
  | FetchOutcome.ok status data =>
      if status = 200 then
        "🌌 " ++ (data.title ++ ("\n\n" ++ (data.explanation ++
          ("\n\n🔭 Изображение: " ++ data.url.getD ""))))
      else
        "Извините, не удалось получить данные от NASA API."

/-- Tokenizer behind `pySplit`: walks the characters keeping the (reversed)
current word in `acc`; whitespace ends a word, runs of whitespace produce no
empty tokens. -/
def pyTokensAux : List Char → List Char → List String
  | acc, [] => if acc = [] then [] else [String.mk acc.reverse]
  | acc, c :: cs =>
      if c.isWhitespace then
        if acc = [] then pyTokensAux [] cs
        else String.mk acc.reverse :: pyTokensAux [] cs
      else pyTokensAux (c :: acc) cs

/-- Python's `str.split()` with no argument: split on runs of whitespace, so
leading, trailing and repeated whitespace produce no empty tokens.  (Python
also splits on a few rarer Unicode whitespace characters; the commands only
ever receive space-separated text.) -/
def pySplit (s : String) : List String :=
  pyTokensAux [] s.data

/-- `weather_command` (src/app.py, lines 339-349): `city =
message.text.split()[1]` takes the token right after the command name;
a missing token raises `IndexError`, answered by the usage hint.  The first
component of the result records which city the lookup ran for (`none` when no
lookup happened); the second is the reply text, with the weather lookup
abstracted as `fetch`. -/
def weather_command (text : String) (fetch : String → String) :
    Option String × String :=
  match (pySplit text)[1]? with
  | some city => (some city, fetch city)
  | none => (none, "Пожалуйста, укажите город. Например: /weather Алматы")

/-- One observable step of the `main` polling loop (src/app.py, lines
395-411): starting a polling pass, printing a caught error, or sleeping. -/
inductive LoopAction
  | poll
  | logError (e : String)
  | sleep (n : Nat)
deriving DecidableEq, Repr

/-- The `while True` loop of `main` (src/app.py, lines 405-411).  Each element
of `sessions` is one polling pass that eventually raised: the store
transformation performed by the dispatched handlers during the pass, and the
exception message the transport raised.  The trace records the poll start,
the `print` of the caught error and the `time.sleep(15)`; after the listed
faults the loop polls again (the final, still-running pass). -/
def runLoop : Store → List ((Store → Store) × String) → Store × List LoopAction
  | st, [] => (st, [LoopAction.poll])
  | st, (f, e) :: rest =>
      let next := runLoop (f st) rest
      (next.1, LoopAction.poll :: LoopAction.logError e :: LoopAction.sleep 15 :: next.2)

/-- The durations of the sleep actions of a trace, in order. -/
def sleepDurations (acts : List LoopAction) : List Nat :=
  acts.filterMap (fun a => match a with | LoopAction.sleep n => some n | _ => none)

/-- The error messages logged by a trace, in order. -/
def loggedErrors (acts : List LoopAction) : List String :=
  acts.filterMap (fun a => match a with | LoopAction.logError e => some e | _ => none)

/-- How many times a trace enters a polling pass. -/
def pollCount (acts : List LoopAction) : Nat :=
  acts.countP (fun a => a = LoopAction.poll)

/-! ### Helper lemmas about the descending sort -/

/-- Inserting an element that every list member strictly precedes (in the
descending order) lands it at the end. -/
theorem orderedInsert_of_forall_not (a : Exchange) :
    ∀ l : List Exchange, (∀ b ∈ l, ¬ descRel a b) →
      l.orderedInsert descRel a = l ++ [a]
  | [], _ => rfl
  | b :: l, h => by
    have hb : ¬ descRel a b := h b (List.mem_cons_self b l)
    simp only [List.orderedInsert, if_neg hb]
    rw [orderedInsert_of_forall_not a l (fun c hc => h c (List.mem_cons_of_mem b hc))]
    rfl

/-- Sorting a strictly ascending list with the descending comparison reverses
it: the model of `ORDER BY timestamp DESC` over a table whose rows were
inserted with strictly increasing timestamps. -/
theorem insertionSort_desc_of_ascending :
    ∀ l : List Exchange, l.Pairwise (fun a b => a.timestamp < b.timestamp) →
      l.insertionSort descRel = l.reverse
  | [], _ => rfl
  | a :: l, h => by
    rcases List.pairwise_cons.mp h with ⟨ha, hl⟩
    simp only [List.insertionSort]
    rw [insertionSort_desc_of_ascending l hl,
      orderedInsert_of_forall_not a l.reverse
        (fun b hb => Nat.not_le.mpr (ha b (List.mem_reverse.mp hb))),
      List.reverse_cons]

/-- Claim C1: with working storage and strictly increasing timestamps,
`get_chat_history u N` is the suffix of the user's stored exchanges of length
`min N k`, projected to (message, response), in chronological (oldest-first)
order: all `k` exchanges when `k ≤ N`, and exactly the `N` most recent when
`k > N`. -/
theorem get_chat_history_returns_window (st : Store) (u : Int) (N : Nat)
    (hok : st.fail = none)
    (hasc : st.rows.Pairwise (fun a b => a.timestamp < b.timestamp)) :
    get_chat_history st u N =
      ((userRows st u).drop ((userRows st u).length - N)).map
        (fun e => (e.message, e.response)) ∧
    ((userRows st u).length ≤ N →
      get_chat_history st u N =
        (userRows st u).map (fun e => (e.message, e.response))) ∧
    (N < (userRows st u).length → (get_chat_history st u N).length = N) := by
  have huser : (userRows st u).Pairwise (fun a b => a.timestamp < b.timestamp) :=
    hasc.filter _
  have hmain : get_chat_history st u N =
      ((userRows st u).drop ((userRows st u).length - N)).map
        (fun e => (e.message, e.response)) := by
    simp only [get_chat_history, hok]
    rw [insertionSort_desc_of_ascending _ huser, List.take_reverse,
      List.reverse_reverse]
  refine ⟨hmain, fun hle => ?_, fun hlt => ?_⟩
  · rw [hmain, Nat.sub_eq_zero_of_le hle, List.drop_zero]
  · rw [hmain, List.length_map, List.length_drop]
    omega

/-- Witness for C1: user 1 has three stored exchanges (timestamps 1, 3, 4) and
user 2 one; with limit 2 the two most recent exchanges of user 1 come back
oldest-first. -/
theorem get_chat_history_returns_window_witness :
    get_chat_history
      ⟨[⟨1, "a", "ra", 1⟩, ⟨2, "x", "rx", 2⟩, ⟨1, "b", "rb", 3⟩, ⟨1, "c", "rc", 4⟩],
        none⟩ 1 2 = [("b", "rb"), ("c", "rc")] := by
  have h := (get_chat_history_returns_window
    ⟨[⟨1, "a", "ra", 1⟩, ⟨2, "x", "rx", 2⟩, ⟨1, "b", "rb", 3⟩, ⟨1, "c", "rc", 4⟩],
      none⟩ 1 2 rfl (by decide)).1
  rw [h]
  rfl

/-- Claim C2 counterexample: on the empty window the code still emits the
"Previous conversation" header (src/app.py line 377 builds it
unconditionally), so the first-turn prompt is not just the new message and
the continuation marker. -/
theorem empty_window_scaffolding_present :
    build_prompt [] "Hello" = "Previous conversation:\n\nUser: Hello\nAssistant: " ∧
    build_prompt [] "Hello" ≠ "\nUser: Hello\nAssistant: " := by
  exact ⟨rfl, by decide⟩

/-- Claim C2 as amended: the empty window produces the same uniform format as
the non-empty case with zero exchange lines — the constant header, a blank
line, the new message and the open continuation marker.  The header
scaffolding is present even around empty content. -/
theorem empty_window_prompt_format (msg : String) :
    build_prompt [] msg =
      "Previous conversation:\n" ++ "\nUser: " ++ msg ++ "\nAssistant: " := rfl

/-- Claim C3: if the generation call raises, `handle_message` leaves the
store untouched and replies with the apology string; an exchange is appended
(via `add_to_history`) only when generation succeeds, in which case the reply
is the generated text. -/
theorem generation_failure_not_persisted (st : Store)
    (gen : String → Except String String) (u : Int) (text : String) (now : Nat) :
    (∀ e, gen (build_prompt (get_chat_history st u 5) text) = Except.error e →
      handle_message st gen u text now = (st, "Извините, произошла ошибка: " ++ e)) ∧
    (∀ r, gen (build_prompt (get_chat_history st u 5) text) = Except.ok r →
      handle_message st gen u text now = ((add_to_history st u text r now).1, r)) := by
  constructor
  · intro e he
    simp only [handle_message, he]
  · intro r hr
    simp only [handle_message, hr]

/-- Witness for C3: a generator that always raises leaves the empty store
unchanged and yields the apology reply. -/
theorem generation_failure_not_persisted_witness :
    handle_message ⟨[], none⟩ (fun _ => Except.error "boom") 42 "Hello" 0
      = (⟨[], none⟩, "Извините, произошла ошибка: " ++ "boom") :=
  (generation_failure_not_persisted ⟨[], none⟩ (fun _ => Except.error "boom")
    42 "Hello" 0).1 "boom" rfl

/-- Claim C4: clearing erases a user's history — a subsequent
`get_chat_history` for that user is empty (for any prior state, even a failing
store); appending after a clear resurrects nothing (only the new exchange is
returned); and clearing a user with no stored rows leaves the store exactly
as it was. -/
theorem clear_history_erases (st : Store) (u : Int) (N : Nat) (m r : String)
    (now : Nat) :
    get_chat_history (clear_history st u).1 u N = [] ∧
    (st.fail = none → 1 ≤ N →
      get_chat_history (add_to_history (clear_history st u).1 u m r now).1 u N
        = [(m, r)]) ∧
    (userRows st u = [] → (clear_history st u).1 = st) := by
  obtain ⟨rows, fail⟩ := st
  cases fail with
  | some e =>
    refine ⟨rfl, fun h => absurd h (by simp), fun _ => rfl⟩
  | none =>
    have hclear : userRows (clear_history ⟨rows, none⟩ u).1 u = [] := by
      simp only [clear_history, userRows, List.filter_filter,
        List.filter_eq_nil_iff]
      intro a _ hcontra
      simp at hcontra
    refine ⟨?_, fun _ hN => ?_, fun hempty => ?_⟩
    · have hfail : (clear_history ⟨rows, none⟩ u).1.fail = none := rfl
      simp [get_chat_history, hfail, hclear]
    · have hadd : userRows
          (add_to_history (clear_history ⟨rows, none⟩ u).1 u m r now).1 u
          = [⟨u, m, r, now⟩] := by
        simp only [add_to_history, clear_history, userRows, List.filter_append,
          List.filter_filter]
        have h1 : List.filter
            (fun e => decide (e.user_id = u) && decide (¬ (e.user_id = u))) rows
            = [] := by
          simp only [List.filter_eq_nil_iff]
          intro a _ hcontra
          simp at hcontra
        rw [h1]
        simp
      cases N with
      | zero => omega
      | succ n =>
        have hfail :
            (add_to_history (clear_history ⟨rows, none⟩ u).1 u m r now).1.fail
              = none := rfl
        simp [get_chat_history, hfail, hadd, List.insertionSort, List.orderedInsert]
    · have hall : List.filter (fun e => ¬ (e.user_id = u)) rows = rows := by
        rw [List.filter_eq_self]
        intro a ha
        have : ¬ (a.user_id = u) := by
          intro hau
          have : a ∈ List.filter (fun e => e.user_id = u) rows :=
            List.mem_filter.mpr ⟨ha, by simp [hau]⟩
          rw [show List.filter (fun e => decide (e.user_id = u)) rows = [] from hempty]
            at this
          exact absurd this (List.not_mem_nil a)
        simp [this]
      simp only [clear_history, hall]

/-- Witness for C4: a store holding two exchanges of user 7 and one of user 3;
clear user 7, append a fresh exchange, read back with limit 5. -/
theorem clear_history_erases_witness :
    get_chat_history
      (add_to_history
        (clear_history ⟨[⟨7, "a", "ra", 1⟩, ⟨3, "y", "ry", 2⟩, ⟨7, "b", "rb", 3⟩],
          none⟩ 7).1 7 "new" "rnew" 9).1 7 5 = [("new", "rnew")] :=
  (clear_history_erases
    ⟨[⟨7, "a", "ra", 1⟩, ⟨3, "y", "ry", 2⟩, ⟨7, "b", "rb", 3⟩], none⟩ 7 5 "new"
    "rnew" 9).2.1 rfl (by decide)

/-- Claim C5: the polling loop never ends on a fault.  For any initial store
and any sequence of polling passes each ending in a transport fault, the loop
(1) carries the store across every recovery unchanged — the final store is
exactly the composition of the per-pass handler effects, so persisted
exchanges are never lost by recovery; (2) re-enters polling after every
fault (one more poll than there are faults); (3) sleeps exactly 15 time units
once per fault; (4) logs every fault message in order. -/
theorem main_loop_recovers (st : Store)
    (sessions : List ((Store → Store) × String)) :
    (runLoop st sessions).1 = sessions.foldl (fun s p => p.1 s) st ∧
    pollCount (runLoop st sessions).2 = sessions.length + 1 ∧
    sleepDurations (runLoop st sessions).2 = List.replicate sessions.length 15 ∧
    loggedErrors (runLoop st sessions).2 = sessions.map Prod.snd := by
  induction sessions generalizing st with
  | nil =>
    exact ⟨rfl, rfl, rfl, rfl⟩
  | cons s rest ih =>
    obtain ⟨f, e⟩ := s
    obtain ⟨ih1, ih2, ih3, ih4⟩ := ih (f st)
    have htrace : (runLoop st ((f, e) :: rest)).2
        = LoopAction.poll :: LoopAction.logError e :: LoopAction.sleep 15 ::
          (runLoop (f st) rest).2 := rfl
    have hstore : (runLoop st ((f, e) :: rest)).1 = (runLoop (f st) rest).1 := rfl
    refine ⟨?_, ?_, ?_, ?_⟩
    · rw [hstore, ih1, List.foldl_cons]
    · rw [htrace]
      simp only [pollCount, List.countP_cons] at ih2 ⊢
      simp [ih2]
    · rw [htrace]
      simp only [sleepDurations, List.filterMap_cons] at ih3 ⊢
      simp [ih3, List.replicate_succ]
    · rw [htrace]
      simp only [loggedErrors, List.filterMap_cons] at ih4 ⊢
      simp [ih4]

/-- Claim C6: when the underlying storage raises, `get_chat_history` returns
the empty sequence instead of propagating; `add_to_history` leaves the store
as it was and only logs the error; and `handle_message` still delivers the
generated reply for the current turn (best-effort persistence). -/
theorem storage_failure_swallowed (st : Store) (e : String) (u : Int)
    (m r text resp : String) (now N : Nat)
    (gen : String → Except String String) (hfail : st.fail = some e) :
    get_chat_history st u N = [] ∧
    add_to_history st u m r now = (st, ["Error adding to history: " ++ e]) ∧
    (gen (build_prompt [] text) = Except.ok resp →
      handle_message st gen u text now = (st, resp)) := by
  have hget : ∀ L : Nat, get_chat_history st u L = [] := by
    intro L
    simp [get_chat_history, hfail]
  refine ⟨hget N, by simp [add_to_history, hfail], fun hgen => ?_⟩
  simp only [handle_message, hget 5, hgen, add_to_history, hfail]

/-- Witness for C6: a store whose SQLite layer raises with message "db down":
reads come back empty, the write is dropped with a log line, and the AI reply
still reaches the user. -/
theorem storage_failure_swallowed_witness :
    get_chat_history ⟨[], some "db down"⟩ 42 5 = [] ∧
    add_to_history ⟨[], some "db down"⟩ 42 "Hello" "Hi" 0
      = (⟨[], some "db down"⟩, ["Error adding to history: " ++ "db down"]) ∧
    handle_message ⟨[], some "db down"⟩ (fun _ => Except.ok "Hi there") 42
      "Hello" 0 = (⟨[], some "db down"⟩, "Hi there") := by
  obtain ⟨h1, h2, h3⟩ := storage_failure_swallowed ⟨[], some "db down"⟩
    "db down" 42 "Hello" "Hi" "Hello" "Hi there" 0 5
    (fun _ => Except.ok "Hi there") rfl
  exact ⟨h1, h2, h3 rfl⟩

/-- The serialization of a conversation window as the alternating
`User:`/`Assistant:` lines of the context loop, in window order. -/
def windowText : List (String × String) → String
  | [] => ""
  | (m, r) :: rest =>
      "User: " ++ m ++ "\nAssistant: " ++ r ++ "\n" ++ windowText rest

theorem str_append_assoc (a b c : String) : a ++ b ++ c = a ++ (b ++ c) :=
  String.ext (by simp)

/-- The context fold of src/app.py lines 377-379 equals its seed followed by
the window serialization. -/
theorem foldl_windowText :
    ∀ (w : List (String × String)) (init : String),
      w.foldl
        (fun ctx p => ctx ++ ("User: " ++ p.1 ++ "\nAssistant: " ++ p.2 ++ "\n"))
        init
        = init ++ windowText w
  | [], init => by
    simp only [List.foldl_nil, windowText]
    exact (String.ext (by simp)).symm
  | (m, r) :: rest, init => by
    rw [List.foldl_cons, foldl_windowText rest]
    simp only [windowText]
    rw [str_append_assoc]

/-- Claim C7: prompt assembly is deterministic — equal (window, message)
inputs give equal prompts — and the prompt is exactly the constant header,
the window's turns serialized oldest-first as alternating lines, the new
message, and the open continuation marker. -/
theorem build_prompt_pure_ordered (w w' : List (String × String))
    (m m' : String) :
    (w = w' → m = m' → build_prompt w m = build_prompt w' m') ∧
    build_prompt w m
      = "Previous conversation:\n" ++ windowText w ++ "\nUser: " ++ m
        ++ "\nAssistant: " := by
  constructor
  · intro h1 h2
    rw [h1, h2]
  · unfold build_prompt buildContext
    rw [foldl_windowText]

/-- Witness for C7 on a one-exchange window. -/
theorem build_prompt_pure_ordered_witness :
    build_prompt [("hi", "hello")] "bye" = build_prompt [("hi", "hello")] "bye" ∧
    build_prompt [("hi", "hello")] "bye"
      = "Previous conversation:\n" ++ windowText [("hi", "hello")] ++ "\nUser: "
        ++ "bye" ++ "\nAssistant: " :=
  ⟨(build_prompt_pure_ordered [("hi", "hello")] [("hi", "hello")] "bye" "bye").1
      rfl rfl,
   (build_prompt_pure_ordered [("hi", "hello")] [("hi", "hello")] "bye" "bye").2⟩

/-- Claim C8: `clear_history u` is frame-local — for any other user `v` the
stored rows of `v` and the result of `get_chat_history` for `v` are
unchanged. -/
theorem clear_history_frame (st : Store) (u v : Int) (N : Nat) (hvu : v ≠ u) :
    userRows (clear_history st u).1 v = userRows st v ∧
    get_chat_history (clear_history st u).1 v N = get_chat_history st v N := by
  obtain ⟨rows, fail⟩ := st
  cases fail with
  | some e => exact ⟨rfl, rfl⟩
  | none =>
    have hrows : userRows (clear_history ⟨rows, none⟩ u).1 v
        = userRows ⟨rows, none⟩ v := by
      simp only [clear_history, userRows, List.filter_filter]
      apply List.filter_congr
      intro a _
      by_cases hav : a.user_id = v
      · simp [hav, hvu]
      · simp [hav]
    refine ⟨hrows, ?_⟩
    have hfail : (clear_history ⟨rows, none⟩ u).1.fail = none := rfl
    simp only [get_chat_history, hfail, hrows]

/-- Witness for C8: clearing user 7 leaves user 3's single exchange readable. -/
theorem clear_history_frame_witness :
    get_chat_history
      (clear_history ⟨[⟨7, "a", "ra", 1⟩, ⟨3, "y", "ry", 2⟩], none⟩ 7).1 3 5
      = get_chat_history ⟨[⟨7, "a", "ra", 1⟩, ⟨3, "y", "ry", 2⟩], none⟩ 3 5 :=
  (clear_history_frame ⟨[⟨7, "a", "ra", 1⟩, ⟨3, "y", "ry", 2⟩], none⟩ 7 3 5
    (by decide)).2

theorem left_empty_of_append_empty (s t : String) (h : s ++ t = "") : s = "" := by
  apply String.ext
  have hd := congrArg String.data h
  rw [String.data_append] at hd
  exact (List.append_eq_nil.mp hd).1

/-- Claim C9: both auxiliary providers return a user-displayable, never-empty
string for every backend outcome: the formatted report on status 200, the
fixed failure text on any other status, and the error text carrying the
exception message when the request raised.  Neither function can raise (they
are total). -/
theorem providers_return_text (city e : String) (status : Nat)
    (wd : WeatherData) (ad : ApodData) :
    get_weather city (FetchOutcome.raised e)
      = "Произошла ошибка при получении погоды: " ++ e ∧
    get_weather city (FetchOutcome.ok status wd)
      = (if status = 200 then
          "🌍 Погода в " ++ (city ++ (":\n🌤 " ++ (pyCapitalize wd.description ++
            ("\n🌡 Температура: " ++ (wd.tempText ++ ("°C\n💧 Влажность: " ++
            (wd.humidityText ++ "%")))))))
         else "Извините, город не найден или произошла ошибка.") ∧
    get_nasa_apod (FetchOutcome.raised e)
      = "Произошла ошибка при получении данных NASA: " ++ e ∧
    get_nasa_apod (FetchOutcome.ok status ad)
      = (if status = 200 then
          "🌌 " ++ (ad.title ++ ("\n\n" ++ (ad.explanation ++
            ("\n\n🔭 Изображение: " ++ ad.url.getD ""))))
         else "Извините, не удалось получить данные от NASA API.") ∧
    get_weather city (FetchOutcome.raised e) ≠ "" ∧
    get_weather city (FetchOutcome.ok status wd) ≠ "" ∧
    get_nasa_apod (FetchOutcome.raised e) ≠ "" ∧
    get_nasa_apod (FetchOutcome.ok status ad) ≠ "" := by
  refine ⟨rfl, rfl, rfl, rfl, ?_, ?_, ?_, ?_⟩
  · intro h
    exact absurd (left_empty_of_append_empty _ _ h) (by decide)
  · show ¬ (if status = 200 then _ else _) = ""
    by_cases h200 : status = 200
    · rw [if_pos h200]
      intro h
      exact absurd (left_empty_of_append_empty _ _ h) (by decide)
    · rw [if_neg h200]
      decide
  · intro h
    exact absurd (left_empty_of_append_empty _ _ h) (by decide)
  · show ¬ (if status = 200 then _ else _) = ""
    by_cases h200 : status = 200
    · rw [if_pos h200]
      intro h
      exact absurd (left_empty_of_append_empty _ _ h) (by decide)
    · rw [if_neg h200]
      decide

/-- Witness for C9 at a concrete failed lookup and a concrete status-200
picture of the day. -/
theorem providers_return_text_witness :
    get_weather "Paris" (FetchOutcome.raised "timeout")
      = "Произошла ошибка при получении погоды: " ++ "timeout" ∧
    get_nasa_apod (FetchOutcome.ok 200 ⟨"Eagle Nebula", "Stars.", some "u"⟩) ≠ "" :=
  ⟨(providers_return_text "Paris" "timeout" 200
      ⟨"clear sky", "20.0", "50"⟩ ⟨"Eagle Nebula", "Stars.", some "u"⟩).1,
   (providers_return_text "Paris" "timeout" 200
      ⟨"clear sky", "20.0", "50"⟩ ⟨"Eagle Nebula", "Stars.", some "u"⟩).2.2.2.2.2.2.2⟩

/-- Claim C10: the weather command looks up only the first
whitespace-delimited token after the command name — any further words are
ignored — and with no argument it answers the usage hint without performing a
lookup. -/
theorem weather_command_first_token (text cmd w1 : String) (rest : List String)
    (fetch : String → String) :
    (pySplit text = cmd :: w1 :: rest →
      weather_command text fetch = (some w1, fetch w1)) ∧
    (pySplit text = [cmd] →
      weather_command text fetch
        = (none, "Пожалуйста, укажите город. Например: /weather Алматы")) := by
  constructor
  · intro h
    simp [weather_command, h]
  · intro h
    simp [weather_command, h]

/-- Witness for C10: "/weather Moscow tomorrow" looks up exactly "Moscow";
"/weather" alone yields the usage hint and no lookup. -/
theorem weather_command_first_token_witness :
    weather_command "/weather Moscow tomorrow" (fun c => "W " ++ c)
      = (some "Moscow", "W " ++ "Moscow") ∧
    weather_command "/weather" (fun c => "W " ++ c)
      = (none, "Пожалуйста, укажите город. Например: /weather Алматы") :=
  ⟨(weather_command_first_token "/weather Moscow tomorrow" "/weather" "Moscow"
      ["tomorrow"] (fun c => "W " ++ c)).1 (by decide),
   (weather_command_first_token "/weather" "/weather" "x" []
      (fun c => "W " ++ c)).2 (by decide)⟩
